import Mathlib

/-!
Shallow embedding of the synthetic analytics data-generation module of
`src/app.py` (SafeHaven fundraising dashboard): donor generation, the
donation stream, segmentation, churn-risk selection and nudge
suggestion, together with theorems settling the specification claims.

Randomness is embedded by passing each random draw to the function as an
explicit argument whose support matches the numpy distribution used in
the source: `np.random.randint(lo, hi)` becomes `lo + draw i % (hi - lo)`
(support exactly `[lo, hi)`); the integer truncation of a positive
log-normal draw becomes an arbitrary natural number (its support);
`np.random.uniform(a, b)` becomes a rational draw constrained to
`[a, b)` by hypothesis.  Dates are embedded as "days before now"
(`join_date = now - join_days_ago` days) and timestamps as "hours since
the start of the current day".  A pandas `DataFrame` of donors is a
`DonorsFrame`: its base rows plus the optional `segment` column that
`get_donor_segments` writes into it in place.  Functions that in the
source write only into a `.copy()` of a slice return the input frame
unchanged.
-/

/-- A row of the master donor table built by `generate_synthetic_donors`
(src/app.py lines 10-21). `join_days_ago` embeds
`join_date = datetime.now().date() - timedelta(days=...)`. -/
structure Donor where
  donor_id : ℕ
  name : String
  join_days_ago : ℕ
  total_donations : ℕ
  total_amount : ℕ
  avg_donation : ℚ
  deriving DecidableEq

instance : Inhabited Donor :=
  ⟨{ donor_id := 0, name := "", join_days_ago := 0, total_donations := 0,
     total_amount := 0, avg_donation := 0 }⟩

/-- The donors `DataFrame`: the generated rows plus the `segment` column
that `get_donor_segments` adds in place (absent until then). -/
structure DonorsFrame where
  rows : List Donor
  segment_col : Option (List String)
  deriving DecidableEq

/-- `generate_synthetic_donors` (src/app.py lines 10-21): sequential ids
from 1001, names `Donor_i`, `join_date` drawn via
`np.random.randint(30, 730)` days before now, `total_donations` via
`np.random.randint(1, 50)`, `total_amount` the integer truncation of a
log-normal draw, and `avg_donation = total_amount / total_donations`. -/
def generate_synthetic_donors (n_donors : ℕ) (joinDraw tdDraw taDraw : ℕ → ℕ) :
    List Donor :=
  (List.range n_donors).map fun i =>
    { donor_id := 1001 + i
      name := "Donor_" ++ toString i
      join_days_ago := 30 + joinDraw i % 700
      total_donations := 1 + tdDraw i % 49
      total_amount := taDraw i
      avg_donation := (taDraw i : ℚ) / ((1 + tdDraw i % 49 : ℕ) : ℚ) }

/-- `generate_synthetic_donors` on an arbitrary integer count: the dict
is built left to right, and `np.random.randint(1, 50, n)` raises
`ValueError` for a negative size, while a size of 0 (like
`range(1001, 1001)`) simply yields an empty column, so a count of 0
produces an empty frame without error. -/
def generate_synthetic_donors_checked (n : ℤ) (joinDraw tdDraw taDraw : ℕ → ℕ) :
    Except String (List Donor) :=
  if n < 0 then Except.error ("ValueError: negative dimensions are not allowed")
  else Except.ok (generate_synthetic_donors n.toNat joinDraw tdDraw taDraw)

/-- C4: `generate_synthetic_donors` produces exactly `n` records, with
`donor_id` unique and contiguous from 1001, every `total_donations` in
`[1, 50)`, and `avg_donation = total_amount / total_donations` defined
(nonzero denominator) and non-negative. -/
theorem generate_synthetic_donors_spec (n : ℕ) (jd td ta : ℕ → ℕ) :
    (generate_synthetic_donors n jd td ta).length = n ∧
    ((generate_synthetic_donors n jd td ta).map Donor.donor_id
        = (List.range n).map (fun i => 1001 + i)) ∧
    ((generate_synthetic_donors n jd td ta).map Donor.donor_id).Nodup ∧
    ∀ d ∈ generate_synthetic_donors n jd td ta,
      1 ≤ d.total_donations ∧ d.total_donations < 50 ∧
        d.total_donations ≠ 0 ∧
        d.avg_donation = (d.total_amount : ℚ) / (d.total_donations : ℚ) ∧
        0 ≤ d.avg_donation := by
  refine ⟨by simp [generate_synthetic_donors], ?_, ?_, ?_⟩
  · simp [generate_synthetic_donors]
  · have h : ((generate_synthetic_donors n jd td ta).map Donor.donor_id)
        = (List.range n).map (fun i => 1001 + i) := by
      simp [generate_synthetic_donors]
    rw [h]
    refine List.Nodup.map ?_ (List.nodup_range n)
    exact fun a b hab => Nat.add_left_cancel hab
  · intro d hd
    simp only [generate_synthetic_donors, List.mem_map, List.mem_range] at hd
    obtain ⟨i, _, rfl⟩ := hd
    refine ⟨?_, ?_, ?_, rfl, ?_⟩
    · show 1 ≤ 1 + td i % 49
      omega
    · show 1 + td i % 49 < 50
      omega
    · show 1 + td i % 49 ≠ 0
      omega
    · show (0 : ℚ) ≤ (ta i : ℚ) / ((1 + td i % 49 : ℕ) : ℚ)
      exact div_nonneg (by positivity) (by positivity)

/-- The donor generated at index 0 when every draw is 0. -/
def donor0 : Donor :=
  { donor_id := 1001, name := "Donor_0", join_days_ago := 30, total_donations := 1,
    total_amount := 0, avg_donation := 0 }

/-- C4 witness: the facts at a concrete generated donor. -/
theorem generate_synthetic_donors_spec_witness :
    1 ≤ donor0.total_donations ∧ donor0.total_donations < 50 ∧
      donor0.total_donations ≠ 0 ∧
      donor0.avg_donation = (donor0.total_amount : ℚ) / (donor0.total_donations : ℚ) ∧
      0 ≤ donor0.avg_donation :=
  (generate_synthetic_donors_spec 3 (fun _ => 0) (fun _ => 0) (fun _ => 0)).2.2.2
    donor0 (by
      simp only [generate_synthetic_donors, List.mem_map, List.mem_range]
      refine ⟨0, by norm_num, ?_⟩
      have hs : "Donor_" ++ toString 0 = "Donor_0" := by decide
      simp [donor0, Donor.mk.injEq, hs])

/-- C9 counterexample: at count 0 the generator returns an empty donor
set without raising, so it does not fail for every `count ≤ 0`. -/
theorem generate_zero_count_no_error :
    generate_synthetic_donors_checked 0 (fun _ => 0) (fun _ => 0) (fun _ => 0)
      = Except.ok [] := rfl

/-- C9 (amended): the generator raises a `ValueError` exactly for
negative counts (numpy rejects a negative array size); a count of 0
yields an empty donor set without error, and positive counts never
raise. -/
theorem generate_synthetic_donors_count_check (n : ℤ) (jd td ta : ℕ → ℕ) :
    (∃ ds, generate_synthetic_donors_checked n jd td ta = Except.ok ds) ↔ 0 ≤ n := by
  unfold generate_synthetic_donors_checked
  split <;> rename_i h <;> simp <;> omega

/-- C9 witness: a positive count succeeds. -/
theorem generate_synthetic_donors_count_check_witness :
    ∃ ds, generate_synthetic_donors_checked 2 (fun _ => 0) (fun _ => 0) (fun _ => 0)
      = Except.ok ds :=
  (generate_synthetic_donors_count_check 2 (fun _ => 0) (fun _ => 0) (fun _ => 0)).mpr
    (by decide)

/-- The four segment labels of `get_donor_segments` (src/app.py lines
42-43): the three `choices` of `np.select` plus its `default`.  Note the
first choice is the emoji-prefixed string that appears in the source. -/
def segment_labels : List String :=
  ["💜 Champions", "Emerging Supporters", "One-Time Givers", "At-Risk Donors"]

/-- The per-donor rule of `get_donor_segments` (src/app.py lines 37-43):
`np.select` with default label At-Risk Donors evaluates the
ordered conditions with first match wins.  `join_date > now - 90 days`
becomes `join_days_ago < 90`. -/
def segmentOf (d : Donor) : String :=
  if 150 < d.total_amount ∧ 10 < d.total_donations then "💜 Champions"
  else if 50 < d.total_amount ∧ d.join_days_ago < 90 then "Emerging Supporters"
  else if d.total_donations = 1 then "One-Time Givers"
  else "At-Risk Donors"

/-- `get_donor_segments` (src/app.py lines 34-47): writes the `segment`
column into the donors frame in place, then returns the
`value_counts()` table, one `(label, count)` pair per occurring label
(the source orders the pairs by descending count; no claim depends on
the order, so the pairs are listed in first-occurrence order here). -/
def get_donor_segments (df : DonorsFrame) : List (String × ℕ) × DonorsFrame :=
  let segs := df.rows.map segmentOf
  (segs.dedup.map fun s => (s, segs.count s),
    { rows := df.rows, segment_col := some segs })

/-- A donor matching the first segmentation rule. -/
def champDonor : Donor :=
  { donor_id := 1001, name := "Donor_0", join_days_ago := 400, total_donations := 20,
    total_amount := 200, avg_donation := 10 }

/-- C3 counterexample: a donor matching the first rule is labelled with
the emoji-prefixed source string, not the claimed label `Champions`. -/
theorem champions_label_counterexample :
    150 < champDonor.total_amount ∧ 10 < champDonor.total_donations ∧
      segmentOf champDonor ≠ "Champions" := by
  refine ⟨by norm_num [champDonor], by norm_num [champDonor], ?_⟩
  have h : segmentOf champDonor = "💜 Champions" := by
    simp [segmentOf, champDonor]
  rw [h]
  decide

/-- C3 (amended): ordered first-match-wins segmentation exactly as
claimed, except that the first label is the `💜 Champions` string of
the source rather than `Champions`; the label of every donor is one of
the four
strings. -/
theorem segmentation_first_match (d : Donor) :
    (150 < d.total_amount ∧ 10 < d.total_donations →
      segmentOf d = "💜 Champions") ∧
    (¬(150 < d.total_amount ∧ 10 < d.total_donations) →
      50 < d.total_amount ∧ d.join_days_ago < 90 →
      segmentOf d = "Emerging Supporters") ∧
    (¬(150 < d.total_amount ∧ 10 < d.total_donations) →
      ¬(50 < d.total_amount ∧ d.join_days_ago < 90) →
      d.total_donations = 1 → segmentOf d = "One-Time Givers") ∧
    (¬(150 < d.total_amount ∧ 10 < d.total_donations) →
      ¬(50 < d.total_amount ∧ d.join_days_ago < 90) →
      d.total_donations ≠ 1 → segmentOf d = "At-Risk Donors") ∧
    segmentOf d ∈ segment_labels := by
  unfold segmentOf
  split_ifs with h1 h2 h3 <;> simp_all [segment_labels]

/-- C3 witness: the first rule fires at a concrete donor. -/
theorem segmentation_first_match_witness :
    segmentOf champDonor = "💜 Champions" :=
  (segmentation_first_match champDonor).1 (by norm_num [champDonor])

/-- C7: segmentation is total — every donor receives exactly one of the
four labels — and the value counts partition the donor set: the counts
returned by `get_donor_segments` sum to the number of donors. -/
theorem segmentation_partitions (df : DonorsFrame) :
    (∀ d : Donor, segment_labels.count (segmentOf d) = 1) ∧
    ((get_donor_segments df).1.map Prod.snd).sum = df.rows.length := by
  constructor
  · intro d
    unfold segmentOf
    split_ifs <;> decide
  · show (((df.rows.map segmentOf).dedup.map
        fun s => (s, (df.rows.map segmentOf).count s)).map Prod.snd).sum
      = df.rows.length
    rw [List.map_map]
    have h : (Prod.snd ∘ fun s => (s, (df.rows.map segmentOf).count s))
        = fun s => List.count s (df.rows.map segmentOf) := rfl
    rw [h, List.sum_map_count_dedup_eq_length, List.length_map]

/-- Round half to even, the rounding used by `numpy.round` /
`pandas.Series.round`. -/
def roundHalfEven (q : ℚ) : ℤ :=
  if Int.fract q < 1/2 then ⌊q⌋
  else if 1/2 < Int.fract q then ⌊q⌋ + 1
  else if ⌊q⌋ % 2 = 0 then ⌊q⌋ else ⌊q⌋ + 1

/-- `.round(2)`: round half to even at the second decimal place. -/
def round2 (q : ℚ) : ℚ := (roundHalfEven (100 * q) : ℚ) / 100

theorem roundHalfEven_bounds (q : ℚ) :
    ⌊q⌋ ≤ roundHalfEven q ∧ roundHalfEven q ≤ ⌊q⌋ + 1 := by
  unfold roundHalfEven
  split_ifs <;> omega

/-- A row of the churn table returned by `get_churn_risk_donors`. -/
structure ChurnRow where
  name : String
  join_days_ago : ℕ
  total_donations : ℕ
  churn_risk_score : ℚ
  suggested_action : String
  deriving DecidableEq

/-- `get_churn_risk_donors` (src/app.py lines 49-56): filter to donors
with `join_date < now - 180 days` (`join_days_ago > 180`), sort
ascending by `total_donations`, take the first `num_at_risk`; then
assign `np.random.uniform(0.7, 0.95, size=num_at_risk).round(2)` as the
score column of the `.copy()`.  The assigned array always has length
`num_at_risk`, so pandas raises a length-mismatch `ValueError` whenever
fewer than `num_at_risk` rows survived the filter; the input frame is
returned untouched (the source writes only into the copy). -/
def get_churn_risk_donors (df : DonorsFrame) (num_at_risk : ℕ) (scoreDraw : ℕ → ℚ) :
    Except String (List ChurnRow) × DonorsFrame :=
  (let at_risk_candidates :=
    ((df.rows.filter fun d => 180 < d.join_days_ago).mergeSort
        (fun a b => a.total_donations ≤ b.total_donations)).take num_at_risk
  if at_risk_candidates.length = num_at_risk then
    Except.ok (at_risk_candidates.enum.map fun p =>
      { name := p.2.name, join_days_ago := p.2.join_days_ago,
        total_donations := p.2.total_donations,
        churn_risk_score := round2 (scoreDraw p.1),
        suggested_action := "Personal Call" })
  else
    Except.error ("ValueError: Length of values does not match length of index"), df)

/-- A frame holding a single recently joined donor: no donor qualifies
as a churn candidate. -/
def recentFrame : DonorsFrame :=
  { rows := [{ donor_id := 1001, name := "Donor_0", join_days_ago := 30,
               total_donations := 5, total_amount := 100, avg_donation := 20 }],
    segment_col := none }

/-- C2: at a donor set where fewer donors qualify than `top_n`, the
churn selector raises the pandas length-mismatch `ValueError` instead of
returning the partial list of qualifying donors. -/
theorem churn_partial_population_errors :
    (get_churn_risk_donors recentFrame 5 (fun _ => 4/5)).1
      = Except.error ("ValueError: Length of values does not match length of index") := by
  simp [get_churn_risk_donors, recentFrame, List.filter]

/-- A row of the nudge table returned by `get_donation_nudges`. -/
structure NudgeRow where
  name : String
  avg_donation : ℚ
  suggested_ask : ℚ
  suggested_channel : String
  deriving DecidableEq

/-- The channel choices of `get_donation_nudges` (src/app.py line 62). -/
def nudge_channels : List String := ["Email", "Targeted Ad", "SMS"]

/-- `get_donation_nudges` (src/app.py lines 58-63):
`donors_df.sample(num_nudges)` draws `num_nudges` distinct rows without
replacement, raising a `ValueError` when `num_nudges` exceeds the
population; `sampleIdx`, a permutation of the row positions, embeds the
sampling randomness (the sample is its first `num_nudges` positions).
`suggested_ask = (avg_donation * 1.25).round(0)` and
`suggested_channel` is a uniform choice from `nudge_channels`.  The
source writes only into the sampled `.copy()`, so the input frame is
returned untouched. -/
def get_donation_nudges (df : DonorsFrame) (num_nudges : ℕ) (sampleIdx : List ℕ)
    (chanDraw : ℕ → ℕ) : Except String (List NudgeRow) × DonorsFrame :=
  (if df.rows.length < num_nudges then
    Except.error
      ("ValueError: Cannot take a larger sample than population when replace is False")
  else
    Except.ok ((sampleIdx.take num_nudges).enum.map fun p =>
      { name := (df.rows.getD p.2 default).name
        avg_donation := (df.rows.getD p.2 default).avg_donation
        suggested_ask :=
          (roundHalfEven ((df.rows.getD p.2 default).avg_donation * (5/4)) : ℚ)
        suggested_channel := nudge_channels.getD (chanDraw p.1 % 3) "" }), df)

/-- C6: requesting more nudges than there are donors raises the pandas
`ValueError`; otherwise the recommender returns exactly `count` rows,
drawn at pairwise distinct row positions (no duplicate donors), with
`suggested_ask = round(avg_donation * 1.25)` and each channel one of
`Email`, `Targeted Ad`, `SMS`. -/
theorem get_donation_nudges_spec (df : DonorsFrame) (count : ℕ) (sampleIdx : List ℕ)
    (chanDraw : ℕ → ℕ) (hperm : sampleIdx.Perm (List.range df.rows.length)) :
    (df.rows.length < count →
      (get_donation_nudges df count sampleIdx chanDraw).1
        = Except.error
            ("ValueError: Cannot take a larger sample than population when replace is False")) ∧
    (count ≤ df.rows.length →
      ∃ rows, (get_donation_nudges df count sampleIdx chanDraw).1 = Except.ok rows ∧
        rows.length = count ∧
        (∃ idxs : List ℕ, idxs.Nodup ∧ idxs.length = count ∧
          (∀ i ∈ idxs, i < df.rows.length) ∧
          rows.map NudgeRow.name = idxs.map (fun i => (df.rows.getD i default).name)) ∧
        (∀ r ∈ rows,
          r.suggested_ask = (roundHalfEven (r.avg_donation * (5/4)) : ℚ) ∧
          r.suggested_channel ∈ nudge_channels)) := by
  have hlen : sampleIdx.length = df.rows.length := by
    simpa using hperm.length_eq
  constructor
  · intro hlt
    simp [get_donation_nudges, hlt]
  · intro hle
    have hnot : ¬ df.rows.length < count := by omega
    have hok : (get_donation_nudges df count sampleIdx chanDraw).1
        = Except.ok ((sampleIdx.take count).enum.map fun p =>
          { name := (df.rows.getD p.2 default).name
            avg_donation := (df.rows.getD p.2 default).avg_donation
            suggested_ask :=
              (roundHalfEven ((df.rows.getD p.2 default).avg_donation * (5/4)) : ℚ)
            suggested_channel := nudge_channels.getD (chanDraw p.1 % 3) "" }) := by
      unfold get_donation_nudges
      rw [if_neg hnot]
    refine ⟨_, hok, ?_, ?_, ?_⟩
    · rw [List.length_map, List.enum_length, List.length_take, hlen]
      omega
    · refine ⟨sampleIdx.take count, ?_, ?_, ?_, ?_⟩
      · exact List.Pairwise.sublist (List.take_sublist count sampleIdx)
          (hperm.nodup_iff.mpr (List.nodup_range _))
      · rw [List.length_take, hlen]
        omega
      · intro i hi
        have : i ∈ sampleIdx := (List.take_sublist count sampleIdx).mem hi
        exact List.mem_range.mp (hperm.mem_iff.mp this)
      · rw [List.map_map]
        conv_rhs => rw [← List.enum_map_snd (sampleIdx.take count), List.map_map]
        rfl
    · intro r hr
      simp only [List.mem_map] at hr
      obtain ⟨p, hp, rfl⟩ := hr
      refine ⟨rfl, ?_⟩
      have h3 : chanDraw p.1 % 3 < nudge_channels.length := by
        simp [nudge_channels]
        omega
      rw [List.getD_eq_get nudge_channels "" h3]
      exact List.get_mem nudge_channels _ h3

/-- A frame holding two concrete donors. -/
def pairFrame : DonorsFrame :=
  { rows := [{ donor_id := 1001, name := "Donor_0", join_days_ago := 200,
               total_donations := 4, total_amount := 100, avg_donation := 25 },
             { donor_id := 1002, name := "Donor_1", join_days_ago := 40,
               total_donations := 1, total_amount := 60, avg_donation := 60 }],
    segment_col := none }

/-- C6 witness: two nudges over a two-donor population. -/
theorem get_donation_nudges_spec_witness :
    ∃ rows, (get_donation_nudges pairFrame 2 [0, 1] (fun _ => 0)).1 = Except.ok rows ∧
      rows.length = 2 ∧
      (∃ idxs : List ℕ, idxs.Nodup ∧ idxs.length = 2 ∧
        (∀ i ∈ idxs, i < pairFrame.rows.length) ∧
        rows.map NudgeRow.name
          = idxs.map (fun i => (pairFrame.rows.getD i default).name)) ∧
      (∀ r ∈ rows,
        r.suggested_ask = (roundHalfEven (r.avg_donation * (5/4)) : ℚ) ∧
        r.suggested_channel ∈ nudge_channels) :=
  (get_donation_nudges_spec pairFrame 2 [0, 1] (fun _ => 0)
      (by simp [pairFrame, List.range_succ])).2 (by simp [pairFrame])

/-- The campaign names of `get_live_donations_data` (src/app.py line 29). -/
def campaigns : List String := ["Summer Appeal", "Holiday Drive", "Emergency Fund"]

/-- The campaign weights intended on src/app.py line 29 (`0.5 / 0.3 / 0.2`). -/
def campaign_weights : List ℚ := [5/10, 3/10, 2/10]

/-- The probability-weight argument of `np.random.choice` exactly as it
appears in src/app.py line 29: the weight list is missing its opening
bracket, leaving a stray closing bracket. -/
def campaign_weight_arg_src : String := "p=0.5, 0.3, 0.2])"

/-- Modelled from the spec: the construction-time rejection of the
malformed weight-distribution argument.  The defect sits in the
repository source (line 29), but the code that rejects it — the language
parser that refuses to load the file — is outside `src/`, so it is
modelled here, per the spec, as a delimiter-balance scan: a closing
bracket with no matching opener fails the scan. -/
def delimScan : List Char → ℤ → Bool
  | [], depth => depth == 0
  | c :: cs, depth =>
      let depth' :=
        depth + (if c = '(' ∨ c = '[' then 1 else if c = ')' ∨ c = ']' then -1 else 0)
      if depth' < 0 then false else delimScan cs depth'

/-- A string whose bracket delimiters are balanced. -/
def wellDelimited (s : String) : Bool := delimScan s.data 0

/-- Modelled from the spec: strict construction of the campaign-weight
distribution — reject malformed weight text at construction time, and
reject weights that do not sum to 1. -/
def mkCampaignDistribution (argText : String) (ws : List ℚ) :
    Except String (List ℚ) :=
  if wellDelimited argText = false then
    Except.error ("SyntaxError: invalid weight argument")
  else if ws.sum ≠ 1 then
    Except.error ("ValueError: probabilities do not sum to 1")
  else Except.ok ws

/-- A row of the donation-event table returned by `get_live_donations_data`:
`timestamp` in hours from the start of the current date, the `name`
column added by the left merge with the donor table. -/
structure DonationEvent where
  timestamp : ℕ
  amount : ℕ
  campaign : String
  donor_id : ℕ
  name : Option String
  deriving DecidableEq

/-- `get_live_donations_data` (src/app.py lines 23-32): draws each
`donor_id` uniformly (with replacement) from the donor table
(`np.random.choice` raises a `ValueError` on an empty population),
assigns hourly timestamps (`pd.date_range` from today with hourly freq),
`amount` as the integer-truncated log-normal draw plus the constant 5,
a campaign from `campaigns`, and left-merges the donor `name` on
`donor_id` (the lookup form of the merge, exact under the unique
`donor_id` invariant of the data model).  The input frame is not
written to. -/
def get_live_donations_data (df : DonorsFrame) (num_donations : ℕ) (dayStart : ℕ)
    (idDraw amountDraw campDraw : ℕ → ℕ) :
    Except String (List DonationEvent) × DonorsFrame :=
  (if df.rows.length = 0 then
    Except.error ("ValueError: a must be non-empty")
  else
    Except.ok ((List.range num_donations).map fun i =>
      let did := (df.rows.getD (idDraw i % df.rows.length) default).donor_id
      { timestamp := dayStart + i
        amount := amountDraw i + 5
        campaign := campaigns.getD (campDraw i % 3) ""
        donor_id := did
        name := (df.rows.find? fun d => d.donor_id == did).map Donor.name }), df)

/-- C1: the campaign list is exactly the three declared names and every
campaign of every generated event is one of them; the declared weights
0.5 / 0.3 / 0.2 sum to 1; and the malformed weight argument of the
source is rejected at construction time with a loud error — it is never
coerced into a distribution. -/
theorem campaign_distribution_spec :
    campaigns = ["Summer Appeal", "Holiday Drive", "Emergency Fund"] ∧
    campaign_weights.sum = 1 ∧
    wellDelimited campaign_weight_arg_src = false ∧
    mkCampaignDistribution campaign_weight_arg_src campaign_weights
      = Except.error ("SyntaxError: invalid weight argument") ∧
    (∀ df M dayStart idDraw amountDraw campDraw evs,
      (get_live_donations_data df M dayStart idDraw amountDraw campDraw).1
        = Except.ok evs →
      ∀ e ∈ evs, e.campaign ∈ campaigns) := by
  refine ⟨rfl, by norm_num [campaign_weights], by decide, rfl, ?_⟩
  intro df M dayStart idDraw amountDraw campDraw evs hok e he
  unfold get_live_donations_data at hok
  split at hok
  · exact absurd hok (by simp)
  · replace hok := Except.ok.inj hok
    subst hok
    simp only [List.mem_map, List.mem_range] at he
    obtain ⟨i, _, rfl⟩ := he
    show campaigns.getD (campDraw i % 3) "" ∈ campaigns
    have h3 : campDraw i % 3 < campaigns.length := by
      simp [campaigns]
      omega
    rw [List.getD_eq_get campaigns "" h3]
    exact List.get_mem campaigns _ h3

/-- A frame holding one concrete donor. -/
def oneFrame : DonorsFrame :=
  { rows := [{ donor_id := 1001, name := "Donor_0", join_days_ago := 200,
               total_donations := 4, total_amount := 100, avg_donation := 25 }],
    segment_col := none }

/-- The single event generated over `oneFrame` with all draws 0. -/
def event0 : DonationEvent :=
  { timestamp := 0, amount := 5, campaign := "Summer Appeal", donor_id := 1001,
    name := some "Donor_0" }

/-- C1 witness: the campaign of a generated event is one of the three names. -/
theorem campaign_distribution_spec_witness :
    event0.campaign ∈ campaigns :=
  campaign_distribution_spec.2.2.2.2 oneFrame 1 0 (fun _ => 0) (fun _ => 0) (fun _ => 0)
    [event0] rfl event0 (by simp)

/-- C5: over a non-empty donor table (unique ids per the data model) the
stream generator returns exactly `M` events, the `donor_id` of every event
occurs in the donor table, and the timestamps are the strictly
increasing hourly sequence starting at the current date. -/
theorem get_live_donations_spec (df : DonorsFrame) (M dayStart : ℕ)
    (idDraw amountDraw campDraw : ℕ → ℕ)
    (hne : df.rows ≠ []) (hids : (df.rows.map Donor.donor_id).Nodup) :
    ∃ evs, (get_live_donations_data df M dayStart idDraw amountDraw campDraw).1
        = Except.ok evs ∧
      evs.length = M ∧
      (∀ e ∈ evs, e.donor_id ∈ df.rows.map Donor.donor_id) ∧
      evs.map DonationEvent.timestamp = (List.range M).map (fun i => dayStart + i) ∧
      List.Pairwise (fun a b => a < b) (evs.map DonationEvent.timestamp) := by
  have h0 : ¬ df.rows.length = 0 := by
    simpa [List.length_eq_zero] using hne
  have hpos : 0 < df.rows.length := Nat.pos_of_ne_zero h0
  have hok : (get_live_donations_data df M dayStart idDraw amountDraw campDraw).1
      = Except.ok ((List.range M).map fun i =>
        let did := (df.rows.getD (idDraw i % df.rows.length) default).donor_id
        { timestamp := dayStart + i
          amount := amountDraw i + 5
          campaign := campaigns.getD (campDraw i % 3) ""
          donor_id := did
          name := (df.rows.find? fun d => d.donor_id == did).map Donor.name }) := by
    unfold get_live_donations_data
    rw [if_neg h0]
  refine ⟨_, hok, by simp, ?_, ?_, ?_⟩
  · intro e he
    simp only [List.mem_map, List.mem_range] at he
    obtain ⟨i, _, rfl⟩ := he
    have hk : idDraw i % df.rows.length < df.rows.length := Nat.mod_lt _ hpos
    show (df.rows.getD (idDraw i % df.rows.length) default).donor_id
        ∈ df.rows.map Donor.donor_id
    rw [List.getD_eq_get df.rows default hk]
    exact List.mem_map_of_mem Donor.donor_id (List.get_mem df.rows _ hk)
  · rw [List.map_map]
    rfl
  · rw [List.map_map]
    have : ((fun e => DonationEvent.timestamp e) ∘ fun i =>
        (let did := (df.rows.getD (idDraw i % df.rows.length) default).donor_id
         { timestamp := dayStart + i
           amount := amountDraw i + 5
           campaign := campaigns.getD (campDraw i % 3) ""
           donor_id := did
           name := (df.rows.find? fun d => d.donor_id == did).map Donor.name
           : DonationEvent }))
        = fun i => dayStart + i := rfl
    rw [this]
    exact List.Pairwise.map _ (fun a b h => Nat.add_lt_add_left h dayStart)
      (List.pairwise_lt_range M)

/-- C5 witness: one event over a one-donor table. -/
theorem get_live_donations_spec_witness :
    ∃ evs, (get_live_donations_data oneFrame 1 0 (fun _ => 0) (fun _ => 0)
        (fun _ => 0)).1 = Except.ok evs ∧
      evs.length = 1 ∧
      (∀ e ∈ evs, e.donor_id ∈ oneFrame.rows.map Donor.donor_id) ∧
      evs.map DonationEvent.timestamp = (List.range 1).map (fun i => 0 + i) ∧
      List.Pairwise (fun a b => a < b) (evs.map DonationEvent.timestamp) :=
  get_live_donations_spec oneFrame 1 0 (fun _ => 0) (fun _ => 0) (fun _ => 0)
    (by simp [oneFrame]) (by simp [oneFrame])

/-- C10: every generated donation amount is the non-negative truncated
log-normal draw plus the constant floor 5, so it is at least 5; the
bound is exact — a zero draw yields an amount of exactly 5. -/
theorem donation_amount_floor (df : DonorsFrame) (M dayStart : ℕ)
    (idDraw amountDraw campDraw : ℕ → ℕ) (evs : List DonationEvent)
    (hok : (get_live_donations_data df M dayStart idDraw amountDraw campDraw).1
        = Except.ok evs) :
    (∀ e ∈ evs, 5 ≤ e.amount) ∧
    (0 < M → (∀ i, amountDraw i = 0) → ∃ e ∈ evs, e.amount = 5) := by
  unfold get_live_donations_data at hok
  split at hok
  · exact absurd hok (by simp)
  · replace hok := Except.ok.inj hok
    subst hok
    constructor
    · intro e he
      simp only [List.mem_map, List.mem_range] at he
      obtain ⟨i, _, rfl⟩ := he
      show 5 ≤ amountDraw i + 5
      omega
    · intro hM hz
      refine ⟨_, List.mem_map_of_mem _ (List.mem_range.mpr hM), ?_⟩
      show amountDraw 0 + 5 = 5
      rw [hz 0]

/-- C10 witness: the floor is attained at a concrete zero draw. -/
theorem donation_amount_floor_witness :
    (∀ e ∈ [event0], 5 ≤ e.amount) ∧
    (0 < 1 → (∀ i : ℕ, (fun _ => 0 : ℕ → ℕ) i = 0) → ∃ e ∈ [event0], e.amount = 5) :=
  donation_amount_floor oneFrame 1 0 (fun _ => 0) (fun _ => 0) (fun _ => 0) [event0] rfl

/-- C8: the derived views read but never rewrite the donor records:
segmentation adds the `segment` column in place yet leaves every
existing donor row unchanged, and the churn, nudge and donation-stream
functions return the donors frame exactly as given (the source writes
only into copies). -/
theorem derived_views_read_only (df : DonorsFrame) (top_n count M dayStart : ℕ)
    (scoreDraw : ℕ → ℚ) (sampleIdx : List ℕ)
    (chanDraw idDraw amountDraw campDraw : ℕ → ℕ) :
    ((get_donor_segments df).2.rows = df.rows) ∧
    ((get_churn_risk_donors df top_n scoreDraw).2 = df) ∧
    ((get_donation_nudges df count sampleIdx chanDraw).2 = df) ∧
    ((get_live_donations_data df M dayStart idDraw amountDraw campDraw).2 = df) := by
  exact ⟨rfl, rfl, rfl, rfl⟩
